import Mathlib

/-!
Verification development for the land-plot backend: a shallow embedding of
the Pydantic schema validators (`schemas.py`) and of the shapefile import
pipeline (`seed_data.py`, class `ShapefileImporter`), with theorems checking
the specification's claims against these definitions.
-/

namespace LandHub

/-! ## Schema enums (schemas.py)

`PlotStatus`, `IntendedUse` and `OrderStatus` are `(str, Enum)` classes;
Pydantic validates an incoming string by enum value.  `ofString?` models
that value lookup: `some` constructor for a member value, `none` (a
validation error) otherwise. -/

inductive PlotStatus
  | available
  | taken
  | pending
deriving DecidableEq, Repr

def PlotStatus.ofString? (s : String) : Option PlotStatus :=
  if s = "available" then some .available
  else if s = "taken" then some .taken
  else if s = "pending" then some .pending
  else none

inductive IntendedUse
  | residential
  | commercial
  | agricultural
  | industrial
  | mixed
deriving DecidableEq, Repr

def IntendedUse.ofString? (s : String) : Option IntendedUse :=
  if s = "residential" then some .residential
  else if s = "commercial" then some .commercial
  else if s = "agricultural" then some .agricultural
  else if s = "industrial" then some .industrial
  else if s = "mixed" then some .mixed
  else none

inductive OrderStatus
  | pending
  | approved
  | rejected
deriving DecidableEq, Repr

def OrderStatus.ofString? (s : String) : Option OrderStatus :=
  if s = "pending" then some .pending
  else if s = "approved" then some .approved
  else if s = "rejected" then some .rejected
  else none

/-! ## PlotOrderCreate.validate_customer_phone (schemas.py lines 38-46)

Python: raise if `not v or len(v.strip()) < 10`; then
`phone = v.strip().replace(' ', '').replace('-', '')`; raise unless `phone`
starts with `+255`, `255` or `0`; return `phone`.  `none` models the raised
`ValueError`. -/

def isPySpace (c : Char) : Bool :=
  c = ' ' || c = '\t' || c = '\n' || c = '\r' || c = '\x0b' || c = '\x0c'

def pyStrip (s : String) : String :=
  String.mk (((s.data.dropWhile isPySpace).reverse.dropWhile isPySpace).reverse)

/-- Python `s.replace(' ', '').replace('-', '')`: for one-character
patterns this deletes every occurrence of the character. -/
def removeSpaceHyphen (s : String) : String :=
  String.mk (s.data.filter (fun c => c ≠ ' ' && c ≠ '-'))

def strBeginsWith (s p : String) : Bool :=
  p.data.isPrefixOf s.data

def tzPrefixOk (p : String) : Bool :=
  strBeginsWith p "+255" || strBeginsWith p "255" || strBeginsWith p "0"

def validate_customer_phone (v : String) : Option String :=
  if v = "" || (pyStrip v).length < 10 then none
  else
    let phone := removeSpaceHyphen (pyStrip v)
    if !(tzPrefixOk phone) then none
    else some phone

/-! ## Geometry model

Geometries are modelled coordinate-free: `kind` is the PostGIS geometry
type, `srid` the SRID stamped on the value, `coordCrs` the CRS the
coordinates are actually expressed in (so a reprojection is visible even
without coordinates), `hasZ` whether a Z dimension is present, and
`geoArea` the value of `ST_Area(geography(g))` in square metres. -/

inductive GeomKind
  | point
  | lineString
  | polygon
  | multiPolygon
deriving DecidableEq, Repr

structure Geometry where
  kind : GeomKind
  srid : Nat
  coordCrs : Nat
  hasZ : Bool
  geoArea : Rat
deriving DecidableEq, Repr

def stForce2D (g : Geometry) : Geometry :=
  { g with hasZ := false }

def stMulti (g : Geometry) : Geometry :=
  if g.kind = .polygon then { g with kind := .multiPolygon } else g

/-- Model of the SQL cast `::geometry(MultiPolygon,4326)`: it succeeds only
on a 2-D MultiPolygon already carrying SRID 4326, and errors otherwise. -/
def castGeomMultiPolygon4326 (g : Geometry) : Except String Geometry :=
  if g.kind = .multiPolygon && g.srid == 4326 && !g.hasZ then .ok g
  else .error "Geometry type or SRID does not match geometry(MultiPolygon,4326)"

/-! ## PostgreSQL numeric helpers -/

def digitsToNat (cs : List Char) : Nat :=
  cs.foldl (fun acc c => acc * 10 + (c.toNat - 48)) 0

/-- Model of `CAST(text AS NUMERIC)` success: optional sign, digits with an
optional decimal point, at least one digit. -/
def parseNumeric (s : String) : Option Rat :=
  let p := fun (sign : Int) (cs : List Char) =>
    let intPart := cs.takeWhile Char.isDigit
    let rest := cs.dropWhile Char.isDigit
    match rest with
    | [] =>
        if intPart.isEmpty then none
        else some ((sign * (digitsToNat intPart : Int) : Int) : Rat)
    | '.' :: frac =>
        if frac.all Char.isDigit && (!intPart.isEmpty || !frac.isEmpty) then
          some (((sign * ((digitsToNat intPart * 10 ^ frac.length + digitsToNat frac : Nat) : Int) : Int) : Rat) / ((10 : Rat) ^ frac.length))
        else none
    | _ => none
  match s.data with
  | '-' :: cs => p (-1) cs
  | '+' :: cs => p 1 cs
  | cs => p 1 cs

/-- PostgreSQL `ROUND(x, 4)` on `numeric` rounds half away from zero. -/
def roundHalfAway (q : Rat) : Int :=
  if 0 ≤ q then ⌊q + 1/2⌋ else -⌊-q + 1/2⌋

def pgRound4 (q : Rat) : Rat :=
  ((roundHalfAway (q * 10000) : Int) : Rat) / 10000

/-- PostgreSQL `LPAD(s, n, fill)`: pads on the left, or truncates to `n`. -/
def lpad (s : String) (n : Nat) (fill : Char) : String :=
  if n ≤ s.length then String.mk (s.data.take n)
  else String.mk (List.replicate (n - s.length) fill) ++ s

def pgNullifEmpty : Option String → Option String
  | none => none
  | some s => if s = "" then none else some s

/-- Model of `CAST(v AS NUMERIC)` on a nullable text value: NULL passes
through, a parsable value casts, anything else raises a SQL error. -/
def castNumericOpt : Option String → Except String (Option Rat)
  | none => .ok none
  | some s =>
    match parseNumeric s with
    | some q => .ok (some q)
    | none => .error "invalid input syntax for type numeric"

/-! ## Staging table model (temp_shapefile_import)

A staged row keeps its feature id, a nullable geometry, and the feature's
attribute values as an association list: for the fallback path this is the
content of the JSONB `attributes` column, for the ogr2ogr path these are the
individual attribute columns.  `none` as a value is SQL NULL / JSON null. -/

structure TempRow where
  fid : Nat
  geometry : Option Geometry
  attrs : List (String × Option String)
deriving DecidableEq, Repr

structure TempTable where
  columns : List (String × String)
  rows : List TempRow
deriving DecidableEq, Repr

structure LandPlotRow where
  plot_code : String
  status : String
  area_hectares : Rat
  district : String
  ward : String
  village : String
  dataset_name : String
  geometry : Geometry
  attributes : List (String × Option String)
deriving DecidableEq, Repr

structure DBState where
  temp : Option TempTable
  land_plots : List LandPlotRow
deriving DecidableEq, Repr

/-- Value of `self.temp_table` in `ShapefileImporter.__init__`. -/
def tempTableName : String := "temp_shapefile_import"

/-- Columns of the staging table the fallback path creates
(`CREATE TABLE ... (id SERIAL PRIMARY KEY, geometry geometry(MultiPolygon, 4326), attributes JSONB)`). -/
def fallbackColumns : List (String × String) :=
  [("id", "integer"), ("geometry", "USER-DEFINED"), ("attributes", "jsonb")]

/-- Model of `attributes->>k` (also used for reading an individual column of
the ogr2ogr staging table): `none` is SQL NULL. -/
def jsonText (attrs : List (String × Option String)) (k : String) : Option String :=
  (attrs.lookup k).join

/-! ## Dynamic SQL generation (process_imported_data, seed_data.py 221-346)

The generated INSERT statements are reproduced as strings (apostrophes are
written as the escape `\x27`, braces as `\x7b`/`\x7d`).  Claim-relevant
fragments are factored into named definitions so containment is by
construction. -/

def onConflictClause : String := "ON CONFLICT (plot_code) DO NOTHING"

def geomCastExpr : String :=
  "ST_Multi(ST_Force2D(geometry))::geometry(MultiPolygon,4326)"

def whereGeomNotNull : String := "WHERE geometry IS NOT NULL"

def statusAvailableExpr : String := "\x27available\x27 as status"

def insertHeader : String :=
  "INSERT INTO land_plots (\n    plot_code, status, area_hectares, district, ward, village,\n    dataset_name, geometry, attributes, created_at, updated_at\n)\nSELECT \n"

def geodesicAreaSql : String :=
  "ROUND(CAST(ST_Area(geography(geometry)) / 10000 AS NUMERIC), 4)"

/-- The INSERT generated when the staging table has an `attributes` column
(seed_data.py lines 255-286). -/
def fallbackInsertSql (dataset_name : String) : String :=
  insertHeader ++
  "    COALESCE(\n        attributes->>\x27plot_code\x27,\n        attributes->>\x27PLOT_CODE\x27,\n        attributes->>\x27plotcode\x27,\n        attributes->>\x27code\x27,\n        \x27" ++
  dataset_name ++
  "_\x27 || LPAD(ROW_NUMBER() OVER (ORDER BY id)::text, 4, \x270\x27)\n    ) as plot_code,\n    " ++
  statusAvailableExpr ++
  ",\n    COALESCE(\n        CAST(NULLIF(attributes->>\x27area_ha\x27, \x27\x27) AS NUMERIC),\n        CAST(NULLIF(attributes->>\x27AREA_HA\x27, \x27\x27) AS NUMERIC),\n        CAST(NULLIF(attributes->>\x27area\x27, \x27\x27) AS NUMERIC),\n        " ++
  geodesicAreaSql ++
  "\n    ) as area_hectares,\n    :district as district,\n    :ward as ward,\n    :village as village,\n    :dataset_name as dataset_name,\n    " ++
  geomCastExpr ++
  " as geometry,\n    attributes,\n    NOW() as created_at,\n    NOW() as updated_at\nFROM " ++
  tempTableName ++
  "\n" ++
  whereGeomNotNull ++
  "\n" ++
  onConflictClause ++
  "\n"

/-- Columns excluded from the attribute JSON on the ogr2ogr path. -/
def excludedColumns : List String := ["id", "geometry", "ogc_fid", "wkb_geometry"]

def attrColumns (columns : List (String × String)) : List String :=
  (columns.filter (fun c => !(excludedColumns.contains c.1))).map (fun c => c.1)

/-- Python `col.lower()` on ASCII column names. -/
def strToLower (s : String) : String := String.mk (s.data.map Char.toLower)

def plotCodeColNames : List String := ["plot_code", "plotcode", "code", "plot_no", "plotnum"]

def areaColNames : List String := ["area_ha", "area", "hectares"]

def findPlotCodeCol (ac : List String) : Option String :=
  ac.find? (fun c => plotCodeColNames.contains (strToLower c))

def findAreaCol (ac : List String) : Option String :=
  ac.find? (fun c => areaColNames.contains (strToLower c))

/-- `jsonb_build_object(...)` over the attribute columns, or `'{}'::jsonb`
when there are none. -/
def jsonBuildSql (ac : List String) : String :=
  if ac.isEmpty then "\x27\x7b\x7d\x27::jsonb"
  else
    "jsonb_build_object(" ++
      String.intercalate ", " (ac.map (fun c => "\x27" ++ c ++ "\x27, " ++ c)) ++ ")"

def defaultPlotCodeSql (dataset_name : String) : String :=
  "\x27" ++ dataset_name ++
  "_\x27 || LPAD(ROW_NUMBER() OVER (ORDER BY ogc_fid)::text, 4, \x270\x27)"

def plotCodeExprSql (ac : List String) (dataset_name : String) : String :=
  match findPlotCodeCol ac with
  | some c => "COALESCE(" ++ c ++ ", " ++ defaultPlotCodeSql dataset_name ++ ")"
  | none => defaultPlotCodeSql dataset_name

def areaExprSql (ac : List String) : String :=
  match findAreaCol ac with
  | some c =>
      "COALESCE(CAST(NULLIF(" ++ c ++ ", \x27\x27) AS NUMERIC), " ++
        geodesicAreaSql ++ ")"
  | none => geodesicAreaSql

/-- The INSERT generated when the staging table has individual attribute
columns (seed_data.py lines 326-346). -/
def ogrInsertSql (columns : List (String × String)) (dataset_name : String) : String :=
  insertHeader ++
  "    " ++ plotCodeExprSql (attrColumns columns) dataset_name ++ " as plot_code,\n    " ++
  statusAvailableExpr ++
  ",\n    " ++ areaExprSql (attrColumns columns) ++
  " as area_hectares,\n    :district as district,\n    :ward as ward,\n    :village as village,\n    :dataset_name as dataset_name,\n    " ++
  geomCastExpr ++
  " as geometry,\n    " ++ jsonBuildSql (attrColumns columns) ++
  " as attributes,\n    NOW() as created_at,\n    NOW() as updated_at\nFROM " ++
  tempTableName ++
  "\n" ++
  whereGeomNotNull ++
  "\n" ++
  onConflictClause ++
  "\n"

def hasAttributesCol (columns : List (String × String)) : Bool :=
  columns.any (fun c => c.1 = "attributes")

/-- Which INSERT `process_imported_data` generates, by the staging table's
actual columns. -/
def processInsertSql (columns : List (String × String)) (dataset_name : String) : String :=
  if hasAttributesCol columns then fallbackInsertSql dataset_name
  else ogrInsertSql columns dataset_name

/-- Containment of `pat` in `s` as an explicit split. -/
def StrContains (s pat : String) : Prop := ∃ a b, s = a ++ (pat ++ b)

/-! ## Semantics of the generated INSERT statements

`buildRowsF` / `buildRowsO` evaluate the SELECT part of the two INSERT
variants row by row: rows with NULL geometry are skipped (the
`WHERE geometry IS NOT NULL` filter), the surviving rows are numbered from 1
in id / ogc_fid order (`ROW_NUMBER()` applies after the WHERE), and a SQL
error (numeric cast, geometry cast) aborts the whole statement. -/

def defaultPlotCode (dataset_name : String) (rownum : Nat) : String :=
  dataset_name ++ "_" ++ lpad (toString rownum) 4 '0'

def fallbackPlotCodeKeys : List String := ["plot_code", "PLOT_CODE", "plotcode", "code"]

def fallbackAreaKeys : List String := ["area_ha", "AREA_HA", "area"]

/-- Left-to-right short-circuit `COALESCE` over numeric casts of nullable
text values, with a final non-null default. -/
def coalesceNumeric (vals : List (Option String)) (dflt : Rat) : Except String Rat :=
  match vals with
  | [] => .ok dflt
  | v :: rest =>
    match castNumericOpt (pgNullifEmpty v) with
    | .error e => .error e
    | .ok (some q) => .ok q
    | .ok none => coalesceNumeric rest dflt

def evalFallbackPlotCode (attrs : List (String × Option String))
    (dataset_name : String) (rownum : Nat) : String :=
  ((fallbackPlotCodeKeys.map (jsonText attrs)).findSome? id).getD
    (defaultPlotCode dataset_name rownum)

def evalFallbackArea (attrs : List (String × Option String)) (g : Geometry) :
    Except String Rat :=
  coalesceNumeric (fallbackAreaKeys.map (jsonText attrs))
    (pgRound4 (g.geoArea / 10000))

def buildRowFallback (dataset_name district ward village : String)
    (rownum : Nat) (r : TempRow) (g : Geometry) : Except String LandPlotRow :=
  match evalFallbackArea r.attrs g with
  | .error e => .error e
  | .ok area =>
    match castGeomMultiPolygon4326 (stMulti (stForce2D g)) with
    | .error e => .error e
    | .ok geom =>
      .ok { plot_code := evalFallbackPlotCode r.attrs dataset_name rownum,
            status := "available",
            area_hectares := area,
            district := district, ward := ward, village := village,
            dataset_name := dataset_name,
            geometry := geom,
            attributes := r.attrs }

/-- Shared shape of the SELECT evaluation: skip NULL geometries (the
`WHERE geometry IS NOT NULL` filter), number the surviving rows from `n`
(`ROW_NUMBER()` applies after the WHERE), abort on the first SQL error. -/
def buildRowsWith (f : Nat → TempRow → Geometry → Except String LandPlotRow) :
    Nat → List TempRow → Except String (List LandPlotRow)
  | _, [] => .ok []
  | n, r :: rest =>
    match r.geometry with
    | none => buildRowsWith f n rest
    | some g =>
      match f n r g with
      | .error e => .error e
      | .ok row =>
        match buildRowsWith f (n + 1) rest with
        | .error e => .error e
        | .ok rows => .ok (row :: rows)

def buildRowsF (dataset_name district ward village : String) :
    Nat → List TempRow → Except String (List LandPlotRow) :=
  buildRowsWith (buildRowFallback dataset_name district ward village)

def evalOgrPlotCode (ac : List String) (r : TempRow)
    (dataset_name : String) (rownum : Nat) : String :=
  match findPlotCodeCol ac with
  | some c => (jsonText r.attrs c).getD (defaultPlotCode dataset_name rownum)
  | none => defaultPlotCode dataset_name rownum

def evalOgrArea (ac : List String) (r : TempRow) (g : Geometry) :
    Except String Rat :=
  match findAreaCol ac with
  | none => .ok (pgRound4 (g.geoArea / 10000))
  | some c =>
    match castNumericOpt (pgNullifEmpty (jsonText r.attrs c)) with
    | .error e => .error e
    | .ok (some q) => .ok q
    | .ok none => .ok (pgRound4 (g.geoArea / 10000))

def buildRowOgr (ac : List String) (dataset_name district ward village : String)
    (rownum : Nat) (r : TempRow) (g : Geometry) : Except String LandPlotRow :=
  match evalOgrArea ac r g with
  | .error e => .error e
  | .ok area =>
    match castGeomMultiPolygon4326 (stMulti (stForce2D g)) with
    | .error e => .error e
    | .ok geom =>
      .ok { plot_code := evalOgrPlotCode ac r dataset_name rownum,
            status := "available",
            area_hectares := area,
            district := district, ward := ward, village := village,
            dataset_name := dataset_name,
            geometry := geom,
            attributes := ac.map (fun c => (c, jsonText r.attrs c)) }

def buildRowsO (ac : List String) (dataset_name district ward village : String) :
    Nat → List TempRow → Except String (List LandPlotRow) :=
  buildRowsWith (buildRowOgr ac dataset_name district ward village)

/-- Rows the generated SELECT yields, dispatching on the staging table's
actual columns exactly as `process_imported_data` does. -/
def buildRows (t : TempTable) (dataset_name district ward village : String) :
    Except String (List LandPlotRow) :=
  if hasAttributesCol t.columns then
    buildRowsF dataset_name district ward village 1 t.rows
  else
    buildRowsO (attrColumns t.columns) dataset_name district ward village 1 t.rows

def plotCodeTaken (tbl : List LandPlotRow) (c : String) : Bool :=
  tbl.any (fun r => r.plot_code == c)

/-- `INSERT ... ON CONFLICT (plot_code) DO NOTHING`: a row whose plot_code
is already present (also one inserted earlier in the same statement) is
skipped silently. -/
def insertOnConflictDoNothing (tbl : List LandPlotRow)
    (newRows : List LandPlotRow) : List LandPlotRow :=
  newRows.foldl (fun acc r => if plotCodeTaken acc r.plot_code then acc else acc ++ [r]) tbl

/-- `ShapefileImporter.process_imported_data` (seed_data.py 221-375): error
when the staging table is missing or empty, otherwise run the generated
INSERT, count the rows of the dataset, drop the staging table and commit.
An error rolls back, so the state is unchanged (`Except.error`). -/
def process_imported_data (db : DBState)
    (dataset_name district ward village : String) :
    Except String (DBState × Nat) :=
  match db.temp with
  | none => .error ("Temporary table " ++ tempTableName ++ " does not exist")
  | some t =>
    if t.rows.length = 0 then .error "No data found in temporary table"
    else
      match buildRows t dataset_name district ward village with
      | .error e => .error e
      | .ok newRows =>
        let lp := insertOnConflictDoNothing db.land_plots newRows
        let inserted := (lp.filter (fun r => r.dataset_name == dataset_name)).length
        .ok ({ temp := none, land_plots := lp }, inserted)

/-! ## Import control flow (seed_data.py 36-219, 377-399)

`ImportEnv` abstracts the world outside the database: the file system, the
availability and outcome of the external tools, the Python GIS libraries,
and the features the shapefile holds. -/

structure Feature where
  geometry : Option Geometry
  properties : List (String × Option String)
deriving DecidableEq, Repr

structure ImportEnv where
  fileExists : Bool
  fileSize : Nat
  gdalAvailable : Bool
  ogr2ogrOk : Bool
  fallbackLibsAvailable : Bool
  fionaOpenOk : Bool
  sourceCrs : Option Nat
  shapefileFields : List (String × String)
  features : List Feature
deriving DecidableEq, Repr

/-- The ogr2ogr command `import_with_ogr2ogr` runs (seed_data.py 121-133). -/
def ogr2ogrCmd (pgConn shapefilePath : String) : List String :=
  ["ogr2ogr",
   "-f", "PostgreSQL",
   pgConn,
   shapefilePath,
   "-nln", tempTableName,
   "-nlt", "MULTIPOLYGON",
   "-t_srs", "EPSG:4326",
   "-lco", "GEOMETRY_NAME=geometry",
   "-lco", "PRECISION=NO",
   "-overwrite",
   "-progress"]

/-- Effect of `-nlt MULTIPOLYGON -t_srs EPSG:4326` on a staged geometry:
promote Polygon to MultiPolygon and reproject into WGS84. -/
def ogrStageGeom (g : Geometry) : Geometry :=
  { kind := if g.kind = .polygon then .multiPolygon else g.kind,
    srid := 4326, coordCrs := 4326, hasZ := g.hasZ, geoArea := g.geoArea }

def ogrColumns (fields : List (String × String)) : List (String × String) :=
  ("ogc_fid", "integer") :: fields ++ [("geometry", "USER-DEFINED")]

def ogrRow (i : Nat) (f : Feature) : TempRow :=
  { fid := i + 1, geometry := f.geometry.map ogrStageGeom, attrs := f.properties }

def ogrStagedTable (env : ImportEnv) : TempTable :=
  { columns := ogrColumns env.shapefileFields,
    rows := env.features.enum.map (fun p => ogrRow p.1 p.2) }

/-- `ShapefileImporter.import_with_ogr2ogr`: `False` without touching the
database when GDAL is unavailable; otherwise drop the staging table, run
ogr2ogr, and report the subprocess outcome. -/
def import_with_ogr2ogr (env : ImportEnv) (db : DBState) : Bool × DBState :=
  if !env.gdalAvailable then (false, db)
  else
    let db1 : DBState := { db with temp := none }
    if env.ogr2ogrOk then (true, { db1 with temp := some (ogrStagedTable env) })
    else (false, db1)

/-- Effect of the fallback loop on one feature's geometry: apply the
pyproj transformer when a source CRS is known and differs from EPSG:4326,
promote Polygon to MultiPolygon, and stamp SRID 4326
(`ST_GeomFromGeoJSON` on a plain GeoJSON geometry). -/
def fallbackStageGeom (sourceCrs : Option Nat) (g : Geometry) : Geometry :=
  let g1 := match sourceCrs with
    | some c => if c ≠ 4326 then { g with coordCrs := 4326 } else g
    | none => g
  let g2 := if g1.kind = .polygon then { g1 with kind := .multiPolygon } else g1
  { g2 with srid := 4326 }

/-- Whether one feature makes it through the fallback loop: its geometry
must exist and, once staged, fit the typed column
`geometry(MultiPolygon, 4326)` of the staging table. -/
def fallbackStageable (sourceCrs : Option Nat) (f : Feature) : Bool :=
  match f.geometry with
  | none => false
  | some g =>
    let s := fallbackStageGeom sourceCrs g
    s.kind == .multiPolygon && !s.hasZ

def fallbackRow (sourceCrs : Option Nat) (i : Nat) (f : Feature) : TempRow :=
  { fid := i + 1,
    geometry := f.geometry.map (fallbackStageGeom sourceCrs),
    attrs := f.properties }

def fallbackStagedTable (env : ImportEnv) : TempTable :=
  { columns := fallbackColumns,
    rows := env.features.enum.map (fun p => fallbackRow env.sourceCrs p.1 p.2) }

/-- `ShapefileImporter.import_with_fallback`: `False` before touching the
database when the libraries are missing; the staging table is dropped,
recreated and committed before `fiona.open`, so a later failure rolls back
to an empty staging table. -/
def import_with_fallback (env : ImportEnv) (db : DBState) : Bool × DBState :=
  if !env.fallbackLibsAvailable then (false, db)
  else if !env.fionaOpenOk then
    (false, { db with temp := some { columns := fallbackColumns, rows := [] } })
  else if env.features.all (fallbackStageable env.sourceCrs) then
    (true, { db with temp := some (fallbackStagedTable env) })
  else
    (false, { db with temp := some { columns := fallbackColumns, rows := [] } })

structure ShapefileInfo where
  path : String
  found : Bool
  size : Nat
deriving DecidableEq, Repr

/-- `ShapefileImporter.get_shapefile_info` (seed_data.py 46-104): pure
metadata extraction; the second component records whether `ogrinfo` was
attempted, which happens only when the file exists.  No database access. -/
def get_shapefile_info (env : ImportEnv) (path : String) : ShapefileInfo × Bool :=
  if !env.fileExists then ({ path := path, found := false, size := 0 }, false)
  else ({ path := path, found := true, size := env.fileSize }, true)

structure ImportTrace where
  ranOgrinfo : Bool
  triedOgr2ogr : Bool
  triedFallbackMethod : Bool
  processedData : Bool
deriving DecidableEq, Repr

inductive ImpError
  | fileNotFound (path : String)
  | bothMethodsFailed
  | processing (msg : String)
deriving DecidableEq, Repr

/-- `ShapefileImporter.import_shapefile` (seed_data.py 377-399): get the
shapefile info, raise `FileNotFoundError` when the file is missing, try
`import_with_ogr2ogr` then `import_with_fallback`, raise when both fail,
and only then process the staged data into `land_plots`.  Returns the final
database state, the outcome, and a trace of what was attempted. -/
def import_shapefile (env : ImportEnv) (db : DBState)
    (path dataset_name district ward village : String) :
    DBState × Except ImpError Nat × ImportTrace :=
  let infoRan := get_shapefile_info env path
  let trace0 : ImportTrace :=
    { ranOgrinfo := infoRan.2, triedOgr2ogr := false,
      triedFallbackMethod := false, processedData := false }
  if !infoRan.1.found then (db, .error (.fileNotFound path), trace0)
  else
    let step1 := import_with_ogr2ogr env db
    let tr1 := { trace0 with triedOgr2ogr := true }
    if step1.1 then
      match process_imported_data step1.2 dataset_name district ward village with
      | .ok dn => (dn.1, .ok dn.2, { tr1 with processedData := true })
      | .error e => (step1.2, .error (.processing e), { tr1 with processedData := true })
    else
      let step2 := import_with_fallback env step1.2
      let tr2 := { tr1 with triedFallbackMethod := true }
      if step2.1 then
        match process_imported_data step2.2 dataset_name district ward village with
        | .ok dn => (dn.1, .ok dn.2, { tr2 with processedData := true })
        | .error e => (step2.2, .error (.processing e), { tr2 with processedData := true })
      else (step2.2, .error .bothMethodsFailed, tr2)

/-- Success condition of the ogr2ogr attempt. -/
def ogrAttemptOk (env : ImportEnv) : Bool :=
  env.gdalAvailable && env.ogr2ogrOk

/-- Success condition of the fallback attempt. -/
def fallbackAttemptOk (env : ImportEnv) : Bool :=
  env.fallbackLibsAvailable && env.fionaOpenOk &&
    env.features.all (fallbackStageable env.sourceCrs)

/-- First present, non-empty value among the fallback area keys
`area_ha`, `AREA_HA`, `area`, in that order. -/
def firstAreaTextF (attrs : List (String × Option String)) : Option String :=
  ((fallbackAreaKeys.map (jsonText attrs)).map pgNullifEmpty).findSome? id

/-! ## Concrete sample data (used by the witness theorems) -/

def geomSampleMP : Geometry :=
  { kind := .multiPolygon, srid := 4326, coordCrs := 4326, hasZ := false, geoArea := 50000 }

def tempRowSample : TempRow :=
  { fid := 1, geometry := some geomSampleMP,
    attrs := [("plot_code", some "P1"), ("area_ha", some "3")] }

def tempTableSample : TempTable := { columns := fallbackColumns, rows := [tempRowSample] }

def dbSample : DBState := { temp := some tempTableSample, land_plots := [] }

def plotRowSample : LandPlotRow :=
  { plot_code := "P1", status := "available", area_hectares := 3,
    district := "D", ward := "W", village := "V", dataset_name := "ds",
    geometry := geomSampleMP, attributes := tempRowSample.attrs }

def dbSampleOut : DBState := { temp := none, land_plots := [plotRowSample] }

/-- Environment in which the shapefile exists but GDAL and the Python GIS
libraries are both unavailable: both import attempts fail. -/
def envFailSample : ImportEnv :=
  { fileExists := true, fileSize := 7, gdalAvailable := false, ogr2ogrOk := false,
    fallbackLibsAvailable := false, fionaOpenOk := false, sourceCrs := none,
    shapefileFields := [], features := [] }

def envMissingSample : ImportEnv := { envFailSample with fileExists := false }

def dbEmpty : DBState := { temp := none, land_plots := [] }


/-! ## Helper lemmas -/

lemma castGeomMP_ok {g g2 : Geometry} (h : castGeomMultiPolygon4326 g = .ok g2) :
    g2 = g ∧ g2.kind = .multiPolygon ∧ g2.srid = 4326 ∧ g2.hasZ = false := by
  unfold castGeomMultiPolygon4326 at h
  split at h
  · next hc =>
      simp only [Except.ok.injEq] at h
      subst h
      simp only [Bool.and_eq_true, decide_eq_true_eq, beq_iff_eq,
        Bool.not_eq_true'] at hc
      exact ⟨rfl, hc.1.1, hc.1.2, hc.2⟩
  · exact absurd h (by simp)

lemma buildRowFallback_ok {d di w v : String} {n : Nat} {r : TempRow}
    {g : Geometry} {row : LandPlotRow}
    (h : buildRowFallback d di w v n r g = .ok row) :
    row.status = "available" ∧ row.geometry.kind = .multiPolygon ∧
    row.geometry.srid = 4326 ∧ row.geometry.hasZ = false ∧
    row.dataset_name = d ∧
    evalFallbackArea r.attrs g = .ok row.area_hectares ∧
    row.plot_code = evalFallbackPlotCode r.attrs d n ∧
    row.attributes = r.attrs := by
  unfold buildRowFallback at h
  cases ha : evalFallbackArea r.attrs g with
  | error e => rw [ha] at h; exact absurd h (by simp)
  | ok q =>
    rw [ha] at h
    cases hc : castGeomMultiPolygon4326 (stMulti (stForce2D g)) with
    | error e => rw [hc] at h; exact absurd h (by simp)
    | ok g2 =>
      rw [hc] at h
      simp only [Except.ok.injEq] at h
      subst h
      obtain ⟨-, h1, h2, h3⟩ := castGeomMP_ok hc
      exact ⟨rfl, h1, h2, h3, rfl, rfl, rfl, rfl⟩

lemma buildRowOgr_ok {ac : List String} {d di w v : String} {n : Nat}
    {r : TempRow} {g : Geometry} {row : LandPlotRow}
    (h : buildRowOgr ac d di w v n r g = .ok row) :
    row.status = "available" ∧ row.geometry.kind = .multiPolygon ∧
    row.geometry.srid = 4326 ∧ row.geometry.hasZ = false ∧
    row.dataset_name = d ∧
    evalOgrArea ac r g = .ok row.area_hectares ∧
    row.plot_code = evalOgrPlotCode ac r d n := by
  unfold buildRowOgr at h
  cases ha : evalOgrArea ac r g with
  | error e => rw [ha] at h; exact absurd h (by simp)
  | ok q =>
    rw [ha] at h
    cases hc : castGeomMultiPolygon4326 (stMulti (stForce2D g)) with
    | error e => rw [hc] at h; exact absurd h (by simp)
    | ok g2 =>
      rw [hc] at h
      simp only [Except.ok.injEq] at h
      subst h
      obtain ⟨-, h1, h2, h3⟩ := castGeomMP_ok hc
      exact ⟨rfl, h1, h2, h3, rfl, rfl, rfl⟩

lemma buildRowsWith_mem {f : Nat → TempRow → Geometry → Except String LandPlotRow} :
    ∀ (rows : List TempRow) (n : Nat) (out : List LandPlotRow),
      buildRowsWith f n rows = .ok out →
      ∀ row ∈ out, ∃ m r g, r ∈ rows ∧ r.geometry = some g ∧ f m r g = .ok row := by
  intro rows
  induction rows with
  | nil =>
      intro n out h row hrow
      simp only [buildRowsWith, Except.ok.injEq] at h
      subst h
      exact absurd hrow (by simp)
  | cons r rest ih =>
      intro n out h row hrow
      rw [buildRowsWith] at h
      split at h
      · next hg =>
          obtain ⟨m, r0, g0, hr0, hg0, hf0⟩ := ih n out h row hrow
          exact ⟨m, r0, g0, List.mem_cons_of_mem _ hr0, hg0, hf0⟩
      · next g hg =>
          split at h
          · exact absurd h (by simp)
          · next row0 hf =>
              split at h
              · exact absurd h (by simp)
              · next rows0 hrest =>
                  simp only [Except.ok.injEq] at h
                  subst h
                  rcases List.mem_cons.mp hrow with h1 | h1
                  · exact ⟨n, r, g, List.mem_cons_self r rest, hg, h1 ▸ hf⟩
                  · obtain ⟨m, r0, g0, hr0, hg0, hf0⟩ := ih (n + 1) rows0 hrest row h1
                    exact ⟨m, r0, g0, List.mem_cons_of_mem _ hr0, hg0, hf0⟩

lemma buildRowsWith_filter (f : Nat → TempRow → Geometry → Except String LandPlotRow) :
    ∀ (rows : List TempRow) (n : Nat),
      buildRowsWith f n rows =
        buildRowsWith f n (rows.filter (fun r => r.geometry.isSome)) := by
  intro rows
  induction rows with
  | nil => intro n; rfl
  | cons r rest ih =>
      intro n
      cases hg : r.geometry with
      | none => simp [buildRowsWith, List.filter_cons, hg, ih n]
      | some g => simp [buildRowsWith, List.filter_cons, hg, ih (n + 1)]

lemma buildRows_mem {t : TempTable} {d di w v : String} {out : List LandPlotRow}
    (h : buildRows t d di w v = .ok out) :
    ∀ row ∈ out,
      row.status = "available" ∧ row.geometry.kind = .multiPolygon ∧
      row.geometry.srid = 4326 ∧ row.geometry.hasZ = false ∧
      row.dataset_name = d := by
  intro row hrow
  unfold buildRows at h
  split at h
  · obtain ⟨m, r0, g0, -, -, hf⟩ := buildRowsWith_mem t.rows 1 out h row hrow
    obtain ⟨h1, h2, h3, h4, h5, -⟩ := buildRowFallback_ok hf
    exact ⟨h1, h2, h3, h4, h5⟩
  · obtain ⟨m, r0, g0, -, -, hf⟩ := buildRowsWith_mem t.rows 1 out h row hrow
    obtain ⟨h1, h2, h3, h4, h5, -⟩ := buildRowOgr_ok hf
    exact ⟨h1, h2, h3, h4, h5⟩

lemma insertOCDN_split :
    ∀ (newRows tbl : List LandPlotRow),
      ∃ kept, insertOnConflictDoNothing tbl newRows = tbl ++ kept ∧
        ∀ r ∈ kept, r ∈ newRows := by
  intro newRows
  induction newRows with
  | nil => intro tbl; exact ⟨[], by simp [insertOnConflictDoNothing], by simp⟩
  | cons r rest ih =>
      intro tbl
      by_cases hc : plotCodeTaken tbl r.plot_code = true
      · obtain ⟨kept, hk, hm⟩ := ih tbl
        refine ⟨kept, ?_, fun x hx => List.mem_cons_of_mem _ (hm x hx)⟩
        simpa [insertOnConflictDoNothing, hc] using hk
      · obtain ⟨kept, hk, hm⟩ := ih (tbl ++ [r])
        refine ⟨r :: kept, ?_, ?_⟩
        · have : insertOnConflictDoNothing tbl (r :: rest) =
              insertOnConflictDoNothing (tbl ++ [r]) rest := by
            simp [insertOnConflictDoNothing, hc]
          rw [this, hk, List.append_assoc]
          rfl
        · intro x hx
          rcases List.mem_cons.mp hx with h1 | h1
          · exact h1 ▸ List.mem_cons_self r rest
          · exact List.mem_cons_of_mem _ (hm x h1)

lemma insertOCDN_unique :
    ∀ (newRows tbl : List LandPlotRow),
      tbl.Pairwise (fun a b => a.plot_code ≠ b.plot_code) →
      (insertOnConflictDoNothing tbl newRows).Pairwise
        (fun a b => a.plot_code ≠ b.plot_code) := by
  intro newRows
  induction newRows with
  | nil => intro tbl h; simpa [insertOnConflictDoNothing] using h
  | cons r rest ih =>
      intro tbl h
      by_cases hc : plotCodeTaken tbl r.plot_code = true
      · have : insertOnConflictDoNothing tbl (r :: rest) =
            insertOnConflictDoNothing tbl rest := by
          simp [insertOnConflictDoNothing, hc]
        rw [this]; exact ih tbl h
      · have hstep : insertOnConflictDoNothing tbl (r :: rest) =
            insertOnConflictDoNothing (tbl ++ [r]) rest := by
          simp [insertOnConflictDoNothing, hc]
        rw [hstep]
        refine ih (tbl ++ [r]) ?_
        rw [List.pairwise_append]
        refine ⟨h, by simp, ?_⟩
        intro a ha b hb
        have hb1 : b = r := by simpa using hb
        subst hb1
        intro habs
        apply hc
        unfold plotCodeTaken
        rw [List.any_eq_true]
        exact ⟨a, ha, by simp [habs]⟩

lemma process_ok_split {db : DBState} {d di w v : String} {db2 : DBState} {n : Nat}
    (h : process_imported_data db d di w v = .ok (db2, n)) :
    db2.temp = none ∧
    ∃ t newRows kept, db.temp = some t ∧
      buildRows t d di w v = .ok newRows ∧
      db2.land_plots = db.land_plots ++ kept ∧
      ∀ r ∈ kept, r ∈ newRows := by
  unfold process_imported_data at h
  split at h
  · exact absurd h (by simp)
  · next t ht =>
      split at h
      · exact absurd h (by simp)
      · split at h
        · exact absurd h (by simp)
        · next newRows hb =>
            simp only [Except.ok.injEq, Prod.mk.injEq] at h
            obtain ⟨hdb2, -⟩ := h
            subst hdb2
            obtain ⟨kept, hk, hm⟩ := insertOCDN_split newRows db.land_plots
            exact ⟨rfl, t, newRows, kept, ht, hb, hk, hm⟩

lemma coalesceNumeric_first :
    ∀ (vals : List (Option String)) (dflt : Rat) (s : String) (q : Rat),
      (vals.map pgNullifEmpty).findSome? id = some s →
      parseNumeric s = some q →
      coalesceNumeric vals dflt = .ok q := by
  intro vals
  induction vals with
  | nil => intro dflt s q h1 _; simp [List.findSome?] at h1
  | cons v rest ih =>
      intro dflt s q h1 h2
      rw [coalesceNumeric]
      cases hv : pgNullifEmpty v with
      | none =>
          simp only [List.map_cons, List.findSome?, hv, id] at h1
          simp only [castNumericOpt]
          exact ih dflt s q h1 h2
      | some s0 =>
          simp only [List.map_cons, List.findSome?, hv, id, Option.some.injEq] at h1
          subst h1
          simp only [castNumericOpt, h2]

lemma coalesceNumeric_none :
    ∀ (vals : List (Option String)) (dflt : Rat),
      (vals.map pgNullifEmpty).findSome? id = none →
      coalesceNumeric vals dflt = .ok dflt := by
  intro vals
  induction vals with
  | nil => intro dflt _; rfl
  | cons v rest ih =>
      intro dflt h1
      rw [coalesceNumeric]
      cases hv : pgNullifEmpty v with
      | none =>
          simp only [List.map_cons, List.findSome?, hv, id] at h1
          simp only [castNumericOpt]
          exact ih dflt h1
      | some s0 => simp [List.findSome?, hv] at h1

lemma import_with_ogr2ogr_fst (env : ImportEnv) (db : DBState) :
    (import_with_ogr2ogr env db).1 = ogrAttemptOk env := by
  unfold import_with_ogr2ogr ogrAttemptOk
  cases env.gdalAvailable <;> cases env.ogr2ogrOk <;> simp

lemma import_with_ogr2ogr_land_plots (env : ImportEnv) (db : DBState) :
    (import_with_ogr2ogr env db).2.land_plots = db.land_plots := by
  unfold import_with_ogr2ogr
  cases env.gdalAvailable <;> cases env.ogr2ogrOk <;> simp

lemma import_with_fallback_fst (env : ImportEnv) (db : DBState) :
    (import_with_fallback env db).1 = fallbackAttemptOk env := by
  unfold import_with_fallback fallbackAttemptOk
  cases env.fallbackLibsAvailable <;> cases env.fionaOpenOk <;>
    cases hall : env.features.all (fallbackStageable env.sourceCrs) <;> simp [hall]

lemma import_with_fallback_land_plots (env : ImportEnv) (db : DBState) :
    (import_with_fallback env db).2.land_plots = db.land_plots := by
  unfold import_with_fallback
  cases env.fallbackLibsAvailable <;> cases env.fionaOpenOk <;>
    cases hall : env.features.all (fallbackStageable env.sourceCrs) <;> simp [hall]

lemma StrContains.self (p : String) : StrContains p p :=
  ⟨"", "", by simp⟩

lemma StrContains.appendRight {s p : String} (h : StrContains s p) (t : String) :
    StrContains (s ++ t) p := by
  obtain ⟨a, b, rfl⟩ := h
  exact ⟨a, b ++ t, by rw [String.append_assoc, String.append_assoc]⟩

lemma StrContains.appendLeft {t p : String} (h : StrContains t p) (s : String) :
    StrContains (s ++ t) p := by
  obtain ⟨a, b, rfl⟩ := h
  exact ⟨s ++ a, b, by rw [String.append_assoc]⟩

lemma StrContains.firstOf (p t : String) : StrContains (p ++ t) p :=
  ⟨"", t, by simp⟩

lemma StrContains.lastOf (s p : String) : StrContains (s ++ p) p :=
  ⟨s, "", by simp⟩

/-! ## Claim theorems -/

/-- C6: the plot status domain is exactly the three values `available`,
`taken`, `pending`: `PlotStatus` accepts each of them (mapping it to the
matching member) and rejects every other string. -/
theorem plotStatus_domain_exact :
    PlotStatus.ofString? "available" = some PlotStatus.available ∧
    PlotStatus.ofString? "taken" = some PlotStatus.taken ∧
    PlotStatus.ofString? "pending" = some PlotStatus.pending ∧
    ∀ s : String, (PlotStatus.ofString? s).isSome = true ↔
      s = "available" ∨ s = "taken" ∨ s = "pending" := by
  refine ⟨rfl, rfl, rfl, fun s => ?_⟩
  unfold PlotStatus.ofString?
  split_ifs with h1 h2 h3 <;> simp_all

/-- C7: an order's status is accepted iff it is one of `pending`,
`approved`, `rejected` (the `OrderStatus` enum used by `OrderStatusUpdate`),
and an order's intended use is accepted iff it is one of `residential`,
`commercial`, `agricultural`, `industrial`, `mixed` (the `IntendedUse` enum
used by `PlotOrderCreate`); every other value is rejected. -/
theorem order_enums_closed_sets :
    (∀ s : String, (OrderStatus.ofString? s).isSome = true ↔
      s = "pending" ∨ s = "approved" ∨ s = "rejected") ∧
    (∀ s : String, (IntendedUse.ofString? s).isSome = true ↔
      s = "residential" ∨ s = "commercial" ∨ s = "agricultural" ∨
        s = "industrial" ∨ s = "mixed") ∧
    OrderStatus.ofString? "pending" = some OrderStatus.pending ∧
    OrderStatus.ofString? "approved" = some OrderStatus.approved ∧
    OrderStatus.ofString? "rejected" = some OrderStatus.rejected ∧
    IntendedUse.ofString? "residential" = some IntendedUse.residential ∧
    IntendedUse.ofString? "commercial" = some IntendedUse.commercial ∧
    IntendedUse.ofString? "agricultural" = some IntendedUse.agricultural ∧
    IntendedUse.ofString? "industrial" = some IntendedUse.industrial ∧
    IntendedUse.ofString? "mixed" = some IntendedUse.mixed := by
  refine ⟨fun s => ?_, fun s => ?_, rfl, rfl, rfl, rfl, rfl, rfl, rfl, rfl⟩
  · unfold OrderStatus.ofString?
    split_ifs with h1 h2 h3 <;> simp_all
  · unfold IntendedUse.ofString?
    split_ifs with h1 h2 h3 h4 h5 <;> simp_all

/-- C9: `validate_customer_phone` accepts `v` iff the whitespace-stripped
input has at least 10 characters and, after removing spaces and hyphens,
starts with `+255`, `255` or `0`; the stored value is the stripped input
with spaces and hyphens removed, and (since the length check runs before
separator removal) the stored value can have fewer than 10 characters. -/
theorem customer_phone_validation_spec :
    (∀ v : String, validate_customer_phone v =
      if 10 ≤ (pyStrip v).length ∧
          tzPrefixOk (removeSpaceHyphen (pyStrip v)) = true
      then some (removeSpaceHyphen (pyStrip v)) else none) ∧
    validate_customer_phone "0 1-2 3-4 56" = some "0123456" ∧
    "0123456".length < 10 := by
  refine ⟨fun v => ?_, by decide, by decide⟩
  unfold validate_customer_phone
  by_cases h0 : v = ""
  · subst h0
    simp [show pyStrip "" = "" from rfl]
  · by_cases h1 : (pyStrip v).length < 10
    · simp [h0, h1, Nat.not_le.mpr h1]
    · by_cases h2 : tzPrefixOk (removeSpaceHyphen (pyStrip v)) = true
      · simp [h0, h1, h2, Nat.le_of_not_lt h1]
      · simp [h0, h1, h2, Nat.le_of_not_lt h1]

/-- C10: when the shapefile path does not exist, `import_shapefile` raises
`FileNotFoundError` before attempting either import method, the database
state is unchanged, and `get_shapefile_info` returns early without running
`ogrinfo` (it never touches the database). -/
theorem missing_file_raises_before_import
    (env : ImportEnv) (db : DBState) (path d di w v : String)
    (h : env.fileExists = false) :
    import_shapefile env db path d di w v =
      (db, .error (.fileNotFound path),
        { ranOgrinfo := false, triedOgr2ogr := false,
          triedFallbackMethod := false, processedData := false }) ∧
    get_shapefile_info env path =
      ({ path := path, found := false, size := 0 }, false) := by
  constructor
  · unfold import_shapefile get_shapefile_info
    simp [h]
  · unfold get_shapefile_info
    simp [h]

/-- Witness for C10 at a concrete environment with a missing file. -/
theorem missing_file_raises_before_import_witness :
    import_shapefile envMissingSample dbEmpty "/data/a.shp" "ds" "D" "W" "V" =
      (dbEmpty, .error (.fileNotFound "/data/a.shp"),
        { ranOgrinfo := false, triedOgr2ogr := false,
          triedFallbackMethod := false, processedData := false }) ∧
    get_shapefile_info envMissingSample "/data/a.shp" =
      ({ path := "/data/a.shp", found := false, size := 0 }, false) :=
  missing_file_raises_before_import envMissingSample dbEmpty
    "/data/a.shp" "ds" "D" "W" "V" rfl

/-- C1: for an existing shapefile path, `import_shapefile` attempts the
native-tool import first, attempts the library fallback exactly when the
native attempt reports failure, and when both attempts fail it raises,
never processes data, and leaves `land_plots` unchanged. -/
theorem import_two_path_strategy
    (env : ImportEnv) (db : DBState) (path d di w v : String)
    (h : env.fileExists = true) :
    (import_shapefile env db path d di w v).2.2.triedOgr2ogr = true ∧
    ((import_shapefile env db path d di w v).2.2.triedFallbackMethod = true ↔
      ogrAttemptOk env = false) ∧
    ((import_shapefile env db path d di w v).2.2.processedData = true ↔
      (ogrAttemptOk env = true ∨ fallbackAttemptOk env = true)) ∧
    (ogrAttemptOk env = false → fallbackAttemptOk env = false →
      (import_shapefile env db path d di w v).2.1 =
        .error .bothMethodsFailed ∧
      (import_shapefile env db path d di w v).1.land_plots = db.land_plots) := by
  have hf1 := import_with_ogr2ogr_fst env db
  unfold import_shapefile get_shapefile_info
  simp only [h, Bool.not_true, Bool.false_eq_true, if_false, if_true]
  cases ho : ogrAttemptOk env with
  | true =>
      rw [ho] at hf1
      cases hp : process_imported_data (import_with_ogr2ogr env db).2 d di w v with
      | ok dn => simp [hf1, hp, ho]
      | error e => simp [hf1, hp, ho]
  | false =>
      rw [ho] at hf1
      have hf2 := import_with_fallback_fst env (import_with_ogr2ogr env db).2
      cases hb : fallbackAttemptOk env with
      | true =>
          rw [hb] at hf2
          cases hp : process_imported_data
              (import_with_fallback env (import_with_ogr2ogr env db).2).2 d di w v with
          | ok dn => simp [hf1, hf2, hp, ho, hb]
          | error e => simp [hf1, hf2, hp, ho, hb]
      | false =>
          rw [hb] at hf2
          simp [hf1, hf2, ho, hb,
            import_with_fallback_land_plots, import_with_ogr2ogr_land_plots]

/-- Witness for C1: a concrete environment in which the file exists and
both import attempts fail; the import raises and land_plots is unchanged. -/
theorem import_two_path_strategy_witness :
    (import_shapefile envFailSample dbEmpty "/data/a.shp" "ds" "D" "W" "V").2.1 =
      .error .bothMethodsFailed ∧
    (import_shapefile envFailSample dbEmpty "/data/a.shp" "ds" "D" "W" "V").1.land_plots =
      dbEmpty.land_plots :=
  (import_two_path_strategy envFailSample dbEmpty
    "/data/a.shp" "ds" "D" "W" "V" rfl).2.2.2 rfl rfl

/-- C3: both import paths stage raw features only into
`temp_shapefile_import` (they never touch `land_plots`);
`process_imported_data` generates its INSERT from the staging table's
actual columns — the JSONB-extraction variant iff an `attributes` column
exists (which the fallback staging table has), otherwise the
individual-columns variant — and the staging table is dropped after a
successful run. -/
theorem staging_table_and_dynamic_sql :
    tempTableName = "temp_shapefile_import" ∧
    (∀ env db, (import_with_ogr2ogr env db).2.land_plots = db.land_plots) ∧
    (∀ env db, (import_with_fallback env db).2.land_plots = db.land_plots) ∧
    hasAttributesCol fallbackColumns = true ∧
    (∀ env, (fallbackStagedTable env).columns = fallbackColumns) ∧
    (∀ cols d, processInsertSql cols d =
      if hasAttributesCol cols then fallbackInsertSql d else ogrInsertSql cols d) ∧
    (∀ t d di w v, hasAttributesCol t.columns = true →
      buildRows t d di w v = buildRowsF d di w v 1 t.rows) ∧
    (∀ t d di w v, hasAttributesCol t.columns = false →
      buildRows t d di w v =
        buildRowsO (attrColumns t.columns) d di w v 1 t.rows) ∧
    (∀ db d di w v db2 n,
      process_imported_data db d di w v = .ok (db2, n) → db2.temp = none) := by
  refine ⟨rfl, import_with_ogr2ogr_land_plots, import_with_fallback_land_plots,
    rfl, fun env => rfl, fun cols d => rfl, ?_, ?_, ?_⟩
  · intro t d di w v h
    simp [buildRows, h]
  · intro t d di w v h
    simp [buildRows, h]
  · intro db d di w v db2 n h
    exact (process_ok_split h).1

/-- Witness for C3: the staging table of the fallback path selects the
JSONB variant, and a successful concrete run drops the staging table. -/
theorem staging_table_and_dynamic_sql_witness :
    buildRows tempTableSample "ds" "D" "W" "V" =
      buildRowsF "ds" "D" "W" "V" 1 tempTableSample.rows ∧
    dbSampleOut.temp = none :=
  ⟨staging_table_and_dynamic_sql.2.2.2.2.2.2.1 tempTableSample "ds" "D" "W" "V" rfl,
   staging_table_and_dynamic_sql.2.2.2.2.2.2.2.2 dbSample "ds" "D" "W" "V"
     dbSampleOut 1 rfl⟩

/-- C4: both generated INSERT statements carry
`ON CONFLICT (plot_code) DO NOTHING`; a staged feature whose plot_code is
already taken is skipped silently (no overwrite, no failure), the insert
preserves distinctness of plot_codes, and a successful run only ever
appends to the existing `land_plots` rows. -/
theorem plot_code_conflict_do_nothing :
    (∀ d, StrContains (fallbackInsertSql d) onConflictClause) ∧
    (∀ cols d, StrContains (ogrInsertSql cols d) onConflictClause) ∧
    (∀ tbl (r : LandPlotRow) rest, plotCodeTaken tbl r.plot_code = true →
      insertOnConflictDoNothing tbl (r :: rest) =
        insertOnConflictDoNothing tbl rest) ∧
    (∀ tbl newRows,
      tbl.Pairwise (fun a b : LandPlotRow => a.plot_code ≠ b.plot_code) →
      (insertOnConflictDoNothing tbl newRows).Pairwise
        (fun a b => a.plot_code ≠ b.plot_code)) ∧
    (∀ db d di w v db2 n, process_imported_data db d di w v = .ok (db2, n) →
      ∃ kept, db2.land_plots = db.land_plots ++ kept) := by
  refine ⟨?_, ?_, ?_, ?_, ?_⟩
  · intro d
    unfold fallbackInsertSql
    repeat (first | exact StrContains.lastOf _ _ | apply StrContains.appendRight)
  · intro cols d
    unfold ogrInsertSql
    repeat (first | exact StrContains.lastOf _ _ | apply StrContains.appendRight)
  · intro tbl r rest h
    simp [insertOnConflictDoNothing, h]
  · intro tbl newRows h
    exact insertOCDN_unique newRows tbl h
  · intro db d di w v db2 n h
    obtain ⟨-, t, newRows, kept, -, -, hk, -⟩ := process_ok_split h
    exact ⟨kept, hk⟩

/-- Witness for C4: inserting a row whose plot_code is already present
leaves the table unchanged, and a successful concrete run appends. -/
theorem plot_code_conflict_do_nothing_witness :
    insertOnConflictDoNothing [plotRowSample] (plotRowSample :: []) =
      insertOnConflictDoNothing [plotRowSample] [] ∧
    ∃ kept, dbSampleOut.land_plots = dbSample.land_plots ++ kept :=
  ⟨plot_code_conflict_do_nothing.2.2.1 [plotRowSample] plotRowSample [] rfl,
   plot_code_conflict_do_nothing.2.2.2.2 dbSample "ds" "D" "W" "V"
     dbSampleOut 1 rfl⟩

/-- C8: both generated INSERT statements hard-code status `available` and
filter `WHERE geometry IS NOT NULL`; semantically, staged rows with NULL
geometry are excluded entirely, and every row a successful run adds to
`land_plots` has status `available`. -/
theorem inserted_rows_available_and_nonnull :
    (∀ d, StrContains (fallbackInsertSql d) whereGeomNotNull) ∧
    (∀ cols d, StrContains (ogrInsertSql cols d) whereGeomNotNull) ∧
    (∀ d, StrContains (fallbackInsertSql d) statusAvailableExpr) ∧
    (∀ cols d, StrContains (ogrInsertSql cols d) statusAvailableExpr) ∧
    (∀ f n rows, buildRowsWith f n rows =
      buildRowsWith f n (rows.filter (fun r => r.geometry.isSome))) ∧
    (∀ db d di w v db2 n, process_imported_data db d di w v = .ok (db2, n) →
      ∀ r ∈ db2.land_plots, r ∉ db.land_plots → r.status = "available") := by
  refine ⟨?_, ?_, ?_, ?_, ?_, ?_⟩
  · intro d
    unfold fallbackInsertSql
    repeat (first | exact StrContains.lastOf _ _ | apply StrContains.appendRight)
  · intro cols d
    unfold ogrInsertSql
    repeat (first | exact StrContains.lastOf _ _ | apply StrContains.appendRight)
  · intro d
    unfold fallbackInsertSql
    repeat (first | exact StrContains.lastOf _ _ | apply StrContains.appendRight)
  · intro cols d
    unfold ogrInsertSql
    repeat (first | exact StrContains.lastOf _ _ | apply StrContains.appendRight)
  · exact fun f n rows => buildRowsWith_filter f rows n
  · intro db d di w v db2 n h r hr hnr
    obtain ⟨-, t, newRows, kept, -, hb, hk, hm⟩ := process_ok_split h
    rw [hk] at hr
    rcases List.mem_append.mp hr with h1 | h1
    · exact absurd h1 hnr
    · exact (buildRows_mem hb r (hm r h1)).1

/-- Witness for C8: the row added by a successful concrete run has status
`available`. -/
theorem inserted_rows_available_and_nonnull_witness :
    plotRowSample.status = "available" :=
  inserted_rows_available_and_nonnull.2.2.2.2.2 dbSample "ds" "D" "W" "V"
    dbSampleOut 1 rfl plotRowSample (by simp [dbSampleOut]) (by simp [dbSample])

/-- C2: every geometry row the importer inserts into `land_plots` is a
two-dimensional MultiPolygon in EPSG:4326: the ogr2ogr command carries
`-nlt MULTIPOLYGON` and `-t_srs EPSG:4326`, the fallback path reprojects
source coordinates into WGS84 and promotes Polygon to MultiPolygon, both
generated INSERTs apply `ST_Multi(ST_Force2D(geometry))::geometry(MultiPolygon,4326)`,
and every row a successful run adds is a 2-D MultiPolygon with SRID 4326. -/
theorem imported_geometry_multipolygon_wgs84 :
    (∀ pc sp, ∃ pre post,
      ogr2ogrCmd pc sp = pre ++ ["-nlt", "MULTIPOLYGON"] ++ post) ∧
    (∀ pc sp, ∃ pre post,
      ogr2ogrCmd pc sp = pre ++ ["-t_srs", "EPSG:4326"] ++ post) ∧
    (∀ sc g, g.kind = .polygon →
      (fallbackStageGeom sc g).kind = .multiPolygon) ∧
    (∀ c g, c ≠ 4326 → (fallbackStageGeom (some c) g).coordCrs = 4326) ∧
    (∀ sc g, (fallbackStageGeom sc g).srid = 4326) ∧
    (∀ d, StrContains (fallbackInsertSql d) geomCastExpr) ∧
    (∀ cols d, StrContains (ogrInsertSql cols d) geomCastExpr) ∧
    (∀ db d di w v db2 n, process_imported_data db d di w v = .ok (db2, n) →
      ∀ r ∈ db2.land_plots, r ∉ db.land_plots →
        r.geometry.kind = .multiPolygon ∧ r.geometry.srid = 4326 ∧
          r.geometry.hasZ = false) := by
  refine ⟨?_, ?_, ?_, ?_, ?_, ?_, ?_, ?_⟩
  · intro pc sp
    exact ⟨["ogr2ogr", "-f", "PostgreSQL", pc, sp, "-nln", tempTableName],
      ["-t_srs", "EPSG:4326", "-lco", "GEOMETRY_NAME=geometry", "-lco",
        "PRECISION=NO", "-overwrite", "-progress"], rfl⟩
  · intro pc sp
    exact ⟨["ogr2ogr", "-f", "PostgreSQL", pc, sp, "-nln", tempTableName,
        "-nlt", "MULTIPOLYGON"],
      ["-lco", "GEOMETRY_NAME=geometry", "-lco", "PRECISION=NO",
        "-overwrite", "-progress"], rfl⟩
  · intro sc g h
    cases sc <;> simp only [fallbackStageGeom] <;> split_ifs <;> simp_all
  · intro c g h
    simp only [fallbackStageGeom]
    split_ifs <;> simp_all
  · intro sc g
    rfl
  · intro d
    unfold fallbackInsertSql
    repeat (first | exact StrContains.lastOf _ _ | apply StrContains.appendRight)
  · intro cols d
    unfold ogrInsertSql
    repeat (first | exact StrContains.lastOf _ _ | apply StrContains.appendRight)
  · intro db d di w v db2 n h r hr hnr
    obtain ⟨-, t, newRows, kept, -, hb, hk, hm⟩ := process_ok_split h
    rw [hk] at hr
    rcases List.mem_append.mp hr with h1 | h1
    · exact absurd h1 hnr
    · obtain ⟨-, h2, h3, h4, -⟩ := buildRows_mem hb r (hm r h1)
      exact ⟨h2, h3, h4⟩

/-- Witness for C2: promotion and reprojection at a concrete polygon in a
projected CRS, and the geometry of the row added by a concrete run. -/
theorem imported_geometry_multipolygon_wgs84_witness :
    (fallbackStageGeom (some 32736)
      { kind := .polygon, srid := 0, coordCrs := 32736, hasZ := false,
        geoArea := 25000 }).kind = GeomKind.multiPolygon ∧
    (fallbackStageGeom (some 32736)
      { kind := .polygon, srid := 0, coordCrs := 32736, hasZ := false,
        geoArea := 25000 }).coordCrs = 4326 ∧
    (plotRowSample.geometry.kind = GeomKind.multiPolygon ∧
      plotRowSample.geometry.srid = 4326 ∧ plotRowSample.geometry.hasZ = false) :=
  ⟨imported_geometry_multipolygon_wgs84.2.2.1 (some 32736)
      { kind := .polygon, srid := 0, coordCrs := 32736, hasZ := false,
        geoArea := 25000 } rfl,
   imported_geometry_multipolygon_wgs84.2.2.2.1 32736
      { kind := .polygon, srid := 0, coordCrs := 32736, hasZ := false,
        geoArea := 25000 } (by decide),
   imported_geometry_multipolygon_wgs84.2.2.2.2.2.2.2 dbSample "ds" "D" "W" "V"
      dbSampleOut 1 rfl plotRowSample (by simp [dbSampleOut])
      (by simp [dbSample])⟩

/-- C5: on the fallback path the imported `area_hectares` is the first
present, non-empty attribute among `area_ha`, `AREA_HA`, `area` cast to
numeric, else the geodesic area divided by 10000 rounded to 4 decimals;
on the native-tool path it is the value of the first staging column named
`area_ha`, `area` or `hectares` cast to numeric when present and
non-empty, else the same geodesic fallback; and the built row's
`area_hectares` is exactly what these expressions evaluate to. -/
theorem area_hectares_semantics :
    (∀ attrs g s q, firstAreaTextF attrs = some s → parseNumeric s = some q →
      evalFallbackArea attrs g = .ok q) ∧
    (∀ attrs g, firstAreaTextF attrs = none →
      evalFallbackArea attrs g = .ok (pgRound4 (g.geoArea / 10000))) ∧
    (∀ ac (r : TempRow) g c s q, findAreaCol ac = some c →
      pgNullifEmpty (jsonText r.attrs c) = some s → parseNumeric s = some q →
      evalOgrArea ac r g = .ok q) ∧
    (∀ ac (r : TempRow) g c, findAreaCol ac = some c →
      pgNullifEmpty (jsonText r.attrs c) = none →
      evalOgrArea ac r g = .ok (pgRound4 (g.geoArea / 10000))) ∧
    (∀ ac (r : TempRow) g, findAreaCol ac = none →
      evalOgrArea ac r g = .ok (pgRound4 (g.geoArea / 10000))) ∧
    (∀ d di w v n r g row, buildRowFallback d di w v n r g = .ok row →
      evalFallbackArea r.attrs g = .ok row.area_hectares) ∧
    (∀ ac d di w v n r g row, buildRowOgr ac d di w v n r g = .ok row →
      evalOgrArea ac r g = .ok row.area_hectares) := by
  refine ⟨?_, ?_, ?_, ?_, ?_, ?_, ?_⟩
  · intro attrs g s q h1 h2
    unfold evalFallbackArea
    exact coalesceNumeric_first _ _ _ _ h1 h2
  · intro attrs g h1
    unfold evalFallbackArea
    exact coalesceNumeric_none _ _ h1
  · intro ac r g c s q h1 h2 h3
    unfold evalOgrArea
    rw [h1]
    simp [castNumericOpt, h2, h3]
  · intro ac r g c h1 h2
    unfold evalOgrArea
    rw [h1]
    simp [castNumericOpt, h2]
  · intro ac r g h1
    unfold evalOgrArea
    rw [h1]
  · intro d di w v n r g row h
    exact (buildRowFallback_ok h).2.2.2.2.2.1
  · intro ac d di w v n r g row h
    exact (buildRowOgr_ok h).2.2.2.2.2.1

/-- Witness for C5: concrete evaluations of the two area expressions. -/
theorem area_hectares_semantics_witness :
    evalFallbackArea [("area_ha", some "3")] geomSampleMP = .ok 3 ∧
    evalOgrArea ["plot_no", "AREA"]
      { fid := 1, geometry := some geomSampleMP,
        attrs := [("plot_no", some "7"), ("AREA", some "12")] }
      geomSampleMP = .ok 12 :=
  ⟨area_hectares_semantics.1 [("area_ha", some "3")] geomSampleMP "3" 3 rfl
      (by decide),
   area_hectares_semantics.2.2.1 ["plot_no", "AREA"]
      { fid := 1, geometry := some geomSampleMP,
        attrs := [("plot_no", some "7"), ("AREA", some "12")] }
      geomSampleMP "AREA" "12" 12 rfl rfl (by decide)⟩

end LandHub
